import Mathlib

/-!
Verification of the GearVRf material shader variants
(`oes_shader.cpp`, `cubemap_shader.cpp`, `cubemap_reflection_shader.cpp`,
`unlit_vertical_stereo_shader.cpp`, with the shared `gl_names.h`).

The embedding mirrors the C++ sources statement by statement.  Each
variant's `render` is modelled as a pure function that returns the
ordered list of GL commands it issues together with an optional error
(the C++ code signals errors by throwing, which aborts the call before
any further command is issued).  Scalars uploaded to the GPU are
modelled as rationals; the GLSL vertex-stage arithmetic (which needs
`sqrt` for `normalize`) is modelled over the reals in a second layer.
-/

namespace gvr

/-! ## Shared GL name constants (`gl_names.h`) -/

def A_NORMAL : String := "a_normal"

def A_POSITION : String := "a_position"

def A_TEX_COORD : String := "a_tex_coord"

def U_COLOR : String := "u_color"

def U_MODEL : String := "u_model"

def U_MV : String := "u_mv"

def U_MV_IT : String := "u_mv_it"

def U_MVP : String := "u_mvp"

def U_OPACITY : String := "u_opacity"

def U_RIGHT : String := "u_right"

def U_TEXTURE : String := "u_texture"

def U_VIEW_I : String := "u_view_i"

/-- Modelled from the spec: the material property keys (`MAIN_TEXTURE`,
`COLOR`, `OPACITY`) are declared in the external material header, which
is not part of this repository; only their distinctness matters here. -/
def MAIN_TEXTURE : String := "main_texture"

/-- Modelled from the spec: external material property key. -/
def COLOR : String := "color"

/-- Modelled from the spec: external material property key. -/
def OPACITY : String := "opacity"

/-! ## GL enumeration constants (numeric values from the GLES headers) -/

def GL_TEXTURE_2D : Nat := 0x0DE1

def GL_TEXTURE_CUBE_MAP : Nat := 0x8513

def GL_TEXTURE_EXTERNAL_OES : Nat := 0x8D65

def GL_TRIANGLES : Nat := 4

def GL_UNSIGNED_SHORT : Nat := 0x1403

def GL_FLOAT : Nat := 0x1406

def GL_TEXTURE0 : Nat := 0x84C0

/-! ## Data model: vectors, matrices (rational layer), texture, material, mesh -/

structure Vec3Q where
  x : ℚ
  y : ℚ
  z : ℚ
deriving DecidableEq

structure Vec4Q where
  x : ℚ
  y : ℚ
  z : ℚ
  w : ℚ
deriving DecidableEq

/-- A 4x4 matrix as four columns, matching glm's column-major layout. -/
structure Mat4Q where
  c0 : Vec4Q
  c1 : Vec4Q
  c2 : Vec4Q
  c3 : Vec4Q
deriving DecidableEq

/-- External collaborator `Texture`: a GL target enum and a GL object id. -/
structure Texture where
  target : Nat
  id : Nat
deriving DecidableEq

/-- Failure of an external material-property lookup (the property bag is
external to this repository; a lookup of an absent key fails). -/
inductive MatErr where
  | missing (key : String)
deriving DecidableEq

/-- Modelled from the spec: the external material property bag, a
read-only key-to-value view whose lookups can fail on absent keys. -/
structure Material where
  textures : String → Except MatErr Texture
  vec3s : String → Except MatErr Vec3Q
  floats : String → Except MatErr ℚ

def Material.getTexture (m : Material) (key : String) : Except MatErr Texture :=
  m.textures key

def Material.getVec3 (m : Material) (key : String) : Except MatErr Vec3Q :=
  m.vec3s key

def Material.getFloat (m : Material) (key : String) : Except MatErr ℚ :=
  m.floats key

/-- External collaborator `Mesh`: vertex attribute streams, the 16-bit
triangle index sequence, and the retained vertex-array-object id. -/
structure Mesh where
  vertices : List ℚ
  normals : List ℚ
  tex_coords : List ℚ
  triangles : List Nat
  vaoId : Nat
deriving DecidableEq

/-- External collaborator `RenderData`: aggregates mesh and material. -/
structure RenderData where
  mesh : Mesh
  material : Material

/-! ## GL command trace -/

/-- Where `glDrawElements` finds its indices: offset 0 into the bound
VAO's element buffer (GLES3 path) or a client-memory pointer. -/
inductive IndexSource where
  | vaoOffset
  | clientData
deriving DecidableEq

/-- One GPU-side command (or mesh/VAO configuration call, or a logged GL
error) issued by a shader variant, in source order. -/
inductive GLCall where
  | setVertexLoc (loc : Int)
  | setNormalLoc (loc : Int)
  | setTexCoordLoc (loc : Int)
  | generateVAO
  | useProgram (pid : Nat)
  | vertexAttribPointer (loc : Int) (size : Nat) (ty : Nat) (data : List ℚ)
  | enableVertexAttribArray (loc : Int)
  | uniformMatrix4fv (loc : Int) (m : Mat4Q)
  | activeTexture (unit : Nat)
  | bindTexture (target : Nat) (tid : Nat)
  | uniform1i (loc : Int) (v : Int)
  | uniform3f (loc : Int) (r g b : ℚ)
  | uniform1f (loc : Int) (v : ℚ)
  | bindVertexArray (vao : Nat)
  | drawElements (mode : Nat) (count : Nat) (indexType : Nat) (src : IndexSource)
  | logGlError (tag : String) (code : Nat)
  | locateAttrib (pid : Nat) (name : String)
  | locateUniform (pid : Nat) (name : String)
  | releaseProgram (pid : Nat)
deriving DecidableEq

/-- Errors a `render` call can raise (the C++ code throws a message
string on a wrong texture target; external material lookups propagate). -/
inductive RenderError where
  | wrongTextureTarget (msg : String)
  | materialError (e : MatErr)
deriving DecidableEq

/-- Result of one `render` call: the optional error it raised and the GL
commands it issued before returning or throwing. -/
structure RenderOutcome where
  error : Option RenderError
  calls : List GLCall
deriving DecidableEq

/-- Modelled from the spec: `checkGlError` (in the external
`util/gvr_gl.h`) reads every pending GL error, logs each one, and
returns; it never throws and never alters control flow. -/
def checkGlError (tag : String) (glErrors : List Nat) : List GLCall :=
  glErrors.map (fun e => GLCall.logGlError tag e)

/-- The value the vertical-stereo variant uploads for `u_right`
(`right ? 1 : 0`). -/
def rightUniformValue (right : Bool) : Int :=
  if right then 1 else 0

/-! ## OESShader (`oes_shader.cpp`) -/

structure OESShader where
  program_ : Nat
  a_position_ : Int
  a_tex_coord_ : Int
  u_mvp_ : Int
  u_texture_ : Int
  u_color_ : Int
  u_opacity_ : Int
deriving DecidableEq

/-- `OESShader::OESShader()`: allocates the program (the external
`GLProgram` constructor yields the fresh id `pid`) and resolves every
attribute/uniform location exactly once, via the supplied lookup
functions (`glGetAttribLocation` / `glGetUniformLocation`). -/
def OESShader.construct (pid : Nat) (locAttrib locUniform : Nat → String → Int) :
    OESShader × List GLCall :=
  (⟨pid, locAttrib pid A_POSITION, locAttrib pid A_TEX_COORD,
    locUniform pid U_MVP, locUniform pid U_TEXTURE,
    locUniform pid U_COLOR, locUniform pid U_OPACITY⟩,
   [GLCall.locateAttrib pid A_POSITION, GLCall.locateAttrib pid A_TEX_COORD,
    GLCall.locateUniform pid U_MVP, GLCall.locateUniform pid U_TEXTURE,
    GLCall.locateUniform pid U_COLOR, GLCall.locateUniform pid U_OPACITY])

/-- `delete program_`: deleting a null pointer is a no-op; otherwise the
owned GL program is released. -/
def deleteProgram (pid : Nat) : List GLCall :=
  if pid = 0 then [] else [GLCall.releaseProgram pid]

/-- `OESShader::recycle()`: `delete program_; program_ = 0;`. -/
def OESShader.recycle (s : OESShader) : OESShader × List GLCall :=
  ({ s with program_ := 0 }, deleteProgram s.program_)

/-- `OESShader::~OESShader()`: `if (program_ != 0) recycle();`. -/
def OESShader.destroy (s : OESShader) : OESShader × List GLCall :=
  if s.program_ ≠ 0 then s.recycle else (s, [])

/-- `OESShader::render(mvp_matrix, render_data)`.  `useGLES3` is the
`_GVRF_USE_GLES3_` build flag selecting the VAO path or the
client-pointer path; `glErrors` is the pending GL error state observed
by the trailing `checkGlError`. -/
def OESShader.render (s : OESShader) (useGLES3 : Bool) (glErrors : List Nat)
    (mvp_matrix : Mat4Q) (render_data : RenderData) : RenderOutcome :=
  let mesh := render_data.mesh
  match render_data.material.getTexture MAIN_TEXTURE with
  | .error e => ⟨some (.materialError e), []⟩
  | .ok texture =>
  match render_data.material.getVec3 COLOR with
  | .error e => ⟨some (.materialError e), []⟩
  | .ok color =>
  match render_data.material.getFloat OPACITY with
  | .error e => ⟨some (.materialError e), []⟩
  | .ok opacity =>
  if texture.target ≠ GL_TEXTURE_EXTERNAL_OES then
    ⟨some (.wrongTextureTarget "OESShader::render : texture with wrong target"), []⟩
  else
    let calls :=
      if useGLES3 then
        [GLCall.setVertexLoc s.a_position_,
         GLCall.setTexCoordLoc s.a_tex_coord_,
         GLCall.generateVAO,
         GLCall.useProgram s.program_,
         GLCall.uniformMatrix4fv s.u_mvp_ mvp_matrix,
         GLCall.activeTexture GL_TEXTURE0,
         GLCall.bindTexture texture.target texture.id,
         GLCall.uniform1i s.u_texture_ 0,
         GLCall.uniform3f s.u_color_ color.x color.y color.z,
         GLCall.uniform1f s.u_opacity_ opacity,
         GLCall.bindVertexArray mesh.vaoId,
         GLCall.drawElements GL_TRIANGLES mesh.triangles.length GL_UNSIGNED_SHORT .vaoOffset,
         GLCall.bindVertexArray 0]
      else
        [GLCall.useProgram s.program_,
         GLCall.vertexAttribPointer s.a_position_ 3 GL_FLOAT mesh.vertices,
         GLCall.enableVertexAttribArray s.a_position_,
         GLCall.vertexAttribPointer s.a_tex_coord_ 2 GL_FLOAT mesh.tex_coords,
         GLCall.enableVertexAttribArray s.a_tex_coord_,
         GLCall.uniformMatrix4fv s.u_mvp_ mvp_matrix,
         GLCall.activeTexture GL_TEXTURE0,
         GLCall.bindTexture texture.target texture.id,
         GLCall.uniform1i s.u_texture_ 0,
         GLCall.uniform3f s.u_color_ color.x color.y color.z,
         GLCall.uniform1f s.u_opacity_ opacity,
         GLCall.drawElements GL_TRIANGLES mesh.triangles.length GL_UNSIGNED_SHORT .clientData]
    ⟨none, calls ++ checkGlError "OESShader::render" glErrors⟩

/-! ## CubemapShader (`cubemap_shader.cpp`) -/

structure CubemapShader where
  program_ : Nat
  a_position_ : Int
  u_model_ : Int
  u_mvp_ : Int
  u_texture_ : Int
  u_color_ : Int
  u_opacity_ : Int
deriving DecidableEq

/-- `CubemapShader::CubemapShader()`. -/
def CubemapShader.construct (pid : Nat) (locAttrib locUniform : Nat → String → Int) :
    CubemapShader × List GLCall :=
  (⟨pid, locAttrib pid A_POSITION, locUniform pid U_MODEL,
    locUniform pid U_MVP, locUniform pid U_TEXTURE,
    locUniform pid U_COLOR, locUniform pid U_OPACITY⟩,
   [GLCall.locateAttrib pid A_POSITION, GLCall.locateUniform pid U_MODEL,
    GLCall.locateUniform pid U_MVP, GLCall.locateUniform pid U_TEXTURE,
    GLCall.locateUniform pid U_COLOR, GLCall.locateUniform pid U_OPACITY])

/-- `CubemapShader::recycle()`. -/
def CubemapShader.recycle (s : CubemapShader) : CubemapShader × List GLCall :=
  ({ s with program_ := 0 }, deleteProgram s.program_)

/-- `CubemapShader::~CubemapShader()`. -/
def CubemapShader.destroy (s : CubemapShader) : CubemapShader × List GLCall :=
  if s.program_ ≠ 0 then s.recycle else (s, [])

/-- `CubemapShader::render(model_matrix, mvp_matrix, render_data)`. -/
def CubemapShader.render (s : CubemapShader) (useGLES3 : Bool) (glErrors : List Nat)
    (model_matrix mvp_matrix : Mat4Q) (render_data : RenderData) : RenderOutcome :=
  let mesh := render_data.mesh
  match render_data.material.getTexture MAIN_TEXTURE with
  | .error e => ⟨some (.materialError e), []⟩
  | .ok texture =>
  match render_data.material.getVec3 COLOR with
  | .error e => ⟨some (.materialError e), []⟩
  | .ok color =>
  match render_data.material.getFloat OPACITY with
  | .error e => ⟨some (.materialError e), []⟩
  | .ok opacity =>
  if texture.target ≠ GL_TEXTURE_CUBE_MAP then
    ⟨some (.wrongTextureTarget "CubemapShader::render : texture with wrong target"), []⟩
  else
    let calls :=
      if useGLES3 then
        [GLCall.setVertexLoc s.a_position_,
         GLCall.generateVAO,
         GLCall.useProgram s.program_,
         GLCall.uniformMatrix4fv s.u_model_ model_matrix,
         GLCall.uniformMatrix4fv s.u_mvp_ mvp_matrix,
         GLCall.activeTexture GL_TEXTURE0,
         GLCall.bindTexture texture.target texture.id,
         GLCall.uniform1i s.u_texture_ 0,
         GLCall.uniform3f s.u_color_ color.x color.y color.z,
         GLCall.uniform1f s.u_opacity_ opacity,
         GLCall.bindVertexArray mesh.vaoId,
         GLCall.drawElements GL_TRIANGLES mesh.triangles.length GL_UNSIGNED_SHORT .vaoOffset,
         GLCall.bindVertexArray 0]
      else
        [GLCall.useProgram s.program_,
         GLCall.vertexAttribPointer s.a_position_ 3 GL_FLOAT mesh.vertices,
         GLCall.enableVertexAttribArray s.a_position_,
         GLCall.uniformMatrix4fv s.u_model_ model_matrix,
         GLCall.uniformMatrix4fv s.u_mvp_ mvp_matrix,
         GLCall.activeTexture GL_TEXTURE0,
         GLCall.bindTexture texture.target texture.id,
         GLCall.uniform1i s.u_texture_ 0,
         GLCall.uniform3f s.u_color_ color.x color.y color.z,
         GLCall.uniform1f s.u_opacity_ opacity,
         GLCall.drawElements GL_TRIANGLES mesh.triangles.length GL_UNSIGNED_SHORT .clientData]
    ⟨none, calls ++ checkGlError "CubemapShader::render" glErrors⟩

/-! ## CubemapReflectionShader (`cubemap_reflection_shader.cpp`) -/

structure CubemapReflectionShader where
  program_ : Nat
  a_position_ : Int
  a_normal_ : Int
  u_mv_ : Int
  u_mv_it_ : Int
  u_mvp_ : Int
  u_view_i_ : Int
  u_texture_ : Int
  u_color_ : Int
  u_opacity_ : Int
deriving DecidableEq

/-- `CubemapReflectionShader::CubemapReflectionShader()`. -/
def CubemapReflectionShader.construct (pid : Nat)
    (locAttrib locUniform : Nat → String → Int) :
    CubemapReflectionShader × List GLCall :=
  (⟨pid, locAttrib pid A_POSITION, locAttrib pid A_NORMAL,
    locUniform pid U_MV, locUniform pid U_MV_IT, locUniform pid U_MVP,
    locUniform pid U_VIEW_I, locUniform pid U_TEXTURE,
    locUniform pid U_COLOR, locUniform pid U_OPACITY⟩,
   [GLCall.locateAttrib pid A_POSITION, GLCall.locateAttrib pid A_NORMAL,
    GLCall.locateUniform pid U_MV, GLCall.locateUniform pid U_MV_IT,
    GLCall.locateUniform pid U_MVP, GLCall.locateUniform pid U_VIEW_I,
    GLCall.locateUniform pid U_TEXTURE, GLCall.locateUniform pid U_COLOR,
    GLCall.locateUniform pid U_OPACITY])

/-- `CubemapReflectionShader::recycle()`. -/
def CubemapReflectionShader.recycle (s : CubemapReflectionShader) :
    CubemapReflectionShader × List GLCall :=
  ({ s with program_ := 0 }, deleteProgram s.program_)

/-- `CubemapReflectionShader::~CubemapReflectionShader()`. -/
def CubemapReflectionShader.destroy (s : CubemapReflectionShader) :
    CubemapReflectionShader × List GLCall :=
  if s.program_ ≠ 0 then s.recycle else (s, [])

/-- `CubemapReflectionShader::render(mv_matrix, mv_it_matrix,
view_invers_matrix, mvp_matrix, render_data)`.  Note that the
non-GLES3 path of the source binds only the position attribute (it
never binds `a_normal_`). -/
def CubemapReflectionShader.render (s : CubemapReflectionShader) (useGLES3 : Bool)
    (glErrors : List Nat) (mv_matrix mv_it_matrix view_invers_matrix mvp_matrix : Mat4Q)
    (render_data : RenderData) : RenderOutcome :=
  let mesh := render_data.mesh
  match render_data.material.getTexture MAIN_TEXTURE with
  | .error e => ⟨some (.materialError e), []⟩
  | .ok texture =>
  match render_data.material.getVec3 COLOR with
  | .error e => ⟨some (.materialError e), []⟩
  | .ok color =>
  match render_data.material.getFloat OPACITY with
  | .error e => ⟨some (.materialError e), []⟩
  | .ok opacity =>
  if texture.target ≠ GL_TEXTURE_CUBE_MAP then
    ⟨some (.wrongTextureTarget
      "CubemapReflectionShader::render : texture with wrong target"), []⟩
  else
    let calls :=
      if useGLES3 then
        [GLCall.setVertexLoc s.a_position_,
         GLCall.setNormalLoc s.a_normal_,
         GLCall.generateVAO,
         GLCall.useProgram s.program_,
         GLCall.uniformMatrix4fv s.u_mv_ mv_matrix,
         GLCall.uniformMatrix4fv s.u_mv_it_ mv_it_matrix,
         GLCall.uniformMatrix4fv s.u_mvp_ mvp_matrix,
         GLCall.uniformMatrix4fv s.u_view_i_ view_invers_matrix,
         GLCall.activeTexture GL_TEXTURE0,
         GLCall.bindTexture texture.target texture.id,
         GLCall.uniform1i s.u_texture_ 0,
         GLCall.uniform3f s.u_color_ color.x color.y color.z,
         GLCall.uniform1f s.u_opacity_ opacity,
         GLCall.bindVertexArray mesh.vaoId,
         GLCall.drawElements GL_TRIANGLES mesh.triangles.length GL_UNSIGNED_SHORT .vaoOffset,
         GLCall.bindVertexArray 0]
      else
        [GLCall.useProgram s.program_,
         GLCall.vertexAttribPointer s.a_position_ 3 GL_FLOAT mesh.vertices,
         GLCall.enableVertexAttribArray s.a_position_,
         GLCall.uniformMatrix4fv s.u_mv_ mv_matrix,
         GLCall.uniformMatrix4fv s.u_mv_it_ mv_it_matrix,
         GLCall.uniformMatrix4fv s.u_mvp_ mvp_matrix,
         GLCall.uniformMatrix4fv s.u_view_i_ view_invers_matrix,
         GLCall.activeTexture GL_TEXTURE0,
         GLCall.bindTexture texture.target texture.id,
         GLCall.uniform1i s.u_texture_ 0,
         GLCall.uniform3f s.u_color_ color.x color.y color.z,
         GLCall.uniform1f s.u_opacity_ opacity,
         GLCall.drawElements GL_TRIANGLES mesh.triangles.length GL_UNSIGNED_SHORT .clientData]
    ⟨none, calls ++ checkGlError "CubemapReflectionShader::render" glErrors⟩

/-! ## UnlitVerticalStereoShader (`unlit_vertical_stereo_shader.cpp`) -/

structure UnlitVerticalStereoShader where
  program_ : Nat
  a_position_ : Int
  a_tex_coord_ : Int
  u_mvp_ : Int
  u_texture_ : Int
  u_color_ : Int
  u_opacity_ : Int
  u_right_ : Int
deriving DecidableEq

/-- `UnlitVerticalStereoShader::UnlitVerticalStereoShader()`. -/
def UnlitVerticalStereoShader.construct (pid : Nat)
    (locAttrib locUniform : Nat → String → Int) :
    UnlitVerticalStereoShader × List GLCall :=
  (⟨pid, locAttrib pid A_POSITION, locAttrib pid A_TEX_COORD,
    locUniform pid U_MVP, locUniform pid U_TEXTURE,
    locUniform pid U_COLOR, locUniform pid U_OPACITY,
    locUniform pid U_RIGHT⟩,
   [GLCall.locateAttrib pid A_POSITION, GLCall.locateAttrib pid A_TEX_COORD,
    GLCall.locateUniform pid U_MVP, GLCall.locateUniform pid U_TEXTURE,
    GLCall.locateUniform pid U_COLOR, GLCall.locateUniform pid U_OPACITY,
    GLCall.locateUniform pid U_RIGHT])

/-- `UnlitVerticalStereoShader::recycle()`. -/
def UnlitVerticalStereoShader.recycle (s : UnlitVerticalStereoShader) :
    UnlitVerticalStereoShader × List GLCall :=
  ({ s with program_ := 0 }, deleteProgram s.program_)

/-- `UnlitVerticalStereoShader::~UnlitVerticalStereoShader()`. -/
def UnlitVerticalStereoShader.destroy (s : UnlitVerticalStereoShader) :
    UnlitVerticalStereoShader × List GLCall :=
  if s.program_ ≠ 0 then s.recycle else (s, [])

/-- `UnlitVerticalStereoShader::render(mvp_matrix, render_data, right)`.
The trailing `checkGlError` tag is `"UnlitShader::render"` in the
source. -/
def UnlitVerticalStereoShader.render (s : UnlitVerticalStereoShader) (useGLES3 : Bool)
    (glErrors : List Nat) (mvp_matrix : Mat4Q) (render_data : RenderData)
    (right : Bool) : RenderOutcome :=
  let mesh := render_data.mesh
  match render_data.material.getTexture MAIN_TEXTURE with
  | .error e => ⟨some (.materialError e), []⟩
  | .ok texture =>
  match render_data.material.getVec3 COLOR with
  | .error e => ⟨some (.materialError e), []⟩
  | .ok color =>
  match render_data.material.getFloat OPACITY with
  | .error e => ⟨some (.materialError e), []⟩
  | .ok opacity =>
  if texture.target ≠ GL_TEXTURE_2D then
    ⟨some (.wrongTextureTarget
      "UnlitVerticalStereoShader::render : texture with wrong target"), []⟩
  else
    let calls :=
      if useGLES3 then
        [GLCall.setVertexLoc s.a_position_,
         GLCall.setTexCoordLoc s.a_tex_coord_,
         GLCall.generateVAO,
         GLCall.useProgram s.program_,
         GLCall.uniformMatrix4fv s.u_mvp_ mvp_matrix,
         GLCall.activeTexture GL_TEXTURE0,
         GLCall.bindTexture texture.target texture.id,
         GLCall.uniform1i s.u_texture_ 0,
         GLCall.uniform3f s.u_color_ color.x color.y color.z,
         GLCall.uniform1f s.u_opacity_ opacity,
         GLCall.uniform1i s.u_right_ (rightUniformValue right),
         GLCall.bindVertexArray mesh.vaoId,
         GLCall.drawElements GL_TRIANGLES mesh.triangles.length GL_UNSIGNED_SHORT .vaoOffset,
         GLCall.bindVertexArray 0]
      else
        [GLCall.useProgram s.program_,
         GLCall.vertexAttribPointer s.a_position_ 3 GL_FLOAT mesh.vertices,
         GLCall.enableVertexAttribArray s.a_position_,
         GLCall.vertexAttribPointer s.a_tex_coord_ 2 GL_FLOAT mesh.tex_coords,
         GLCall.enableVertexAttribArray s.a_tex_coord_,
         GLCall.uniformMatrix4fv s.u_mvp_ mvp_matrix,
         GLCall.activeTexture GL_TEXTURE0,
         GLCall.bindTexture texture.target texture.id,
         GLCall.uniform1i s.u_texture_ 0,
         GLCall.uniform3f s.u_color_ color.x color.y color.z,
         GLCall.uniform1f s.u_opacity_ opacity,
         GLCall.uniform1i s.u_right_ (rightUniformValue right),
         GLCall.drawElements GL_TRIANGLES mesh.triangles.length GL_UNSIGNED_SHORT .clientData]
    ⟨none, calls ++ checkGlError "UnlitShader::render" glErrors⟩

/-! ## Trace observation helpers -/

/-- The (mode, index count, index type) signature of a draw command. -/
def GLCall.drawSignature : GLCall → Option (Nat × Nat × Nat)
  | .drawElements mode count ty _ => some (mode, count, ty)
  | _ => none

/-- Signatures of all draw commands in a trace, in order. -/
def drawSigs (t : List GLCall) : List (Nat × Nat × Nat) :=
  t.filterMap GLCall.drawSignature

/-- The name queried by an attribute/uniform location-resolution call. -/
def GLCall.locateName : GLCall → Option String
  | .locateAttrib _ n => some n
  | .locateUniform _ n => some n
  | _ => none

/-- Names of all location-resolution calls in a trace, in order. -/
def locates (t : List GLCall) : List String :=
  t.filterMap GLCall.locateName

/-- Program ids of all release commands in a trace, in order. -/
def releases (t : List GLCall) : List Nat :=
  t.filterMap (fun c => match c with
    | .releaseProgram pid => some pid
    | _ => none)

/-- The location argument of an attribute/uniform binding command, when
the command is one. -/
def GLCall.bindLoc : GLCall → Option Int
  | .vertexAttribPointer l _ _ _ => some l
  | .enableVertexAttribArray l => some l
  | .uniformMatrix4fv l _ => some l
  | .uniform1i l _ => some l
  | .uniform3f l _ _ _ => some l
  | .uniform1f l _ => some l
  | _ => none

/-- A value held in a uniform slot. -/
inductive UVal where
  | ival (v : Int)
  | fval (v : ℚ)
  | f3val (a b c : ℚ)
  | mval (m : Mat4Q)
deriving DecidableEq

/-- The location-addressed part of the GL context state: uniform slots
of the current program and vertex-attribute bindings. -/
structure GLState where
  uniforms : List (Int × UVal)
  enabled : List Int
  pointers : List (Int × (Nat × Nat × List ℚ))
deriving DecidableEq

/-- Modelled from the spec: the GL semantics of a location-addressed
binding command.  A `glUniform*` call whose location is the sentinel -1
is silently ignored by GL, and a vertex-attribute call on a negative
location sets no binding (GL records an error but binds nothing and
does not crash); any other command does not touch this part of the
state. -/
def applyCall (st : GLState) : GLCall → GLState
  | .vertexAttribPointer l size ty data =>
      if l < 0 then st else { st with pointers := (l, (size, ty, data)) :: st.pointers }
  | .enableVertexAttribArray l =>
      if l < 0 then st else { st with enabled := l :: st.enabled }
  | .uniformMatrix4fv l m =>
      if l = -1 then st else { st with uniforms := (l, UVal.mval m) :: st.uniforms }
  | .uniform1i l v =>
      if l = -1 then st else { st with uniforms := (l, UVal.ival v) :: st.uniforms }
  | .uniform3f l a b c =>
      if l = -1 then st else { st with uniforms := (l, UVal.f3val a b c) :: st.uniforms }
  | .uniform1f l v =>
      if l = -1 then st else { st with uniforms := (l, UVal.fval v) :: st.uniforms }
  | _ => st

/-! ## GLSL vertex-stage arithmetic (real-number layer)

The cube-map vertex shaders use `normalize`, which divides by a square
root, so this layer lives over `ℝ`. -/

structure Vec3R where
  x : ℝ
  y : ℝ
  z : ℝ

structure Vec4R where
  x : ℝ
  y : ℝ
  z : ℝ
  w : ℝ

def Vec4R.xyz (v : Vec4R) : Vec3R :=
  ⟨v.x, v.y, v.z⟩

/-- A 4x4 real matrix as four columns (glm column-major layout). -/
structure Mat4R where
  c0 : Vec4R
  c1 : Vec4R
  c2 : Vec4R
  c3 : Vec4R

/-- `m * v` for a column-major matrix, as glm and GLSL compute it. -/
def Mat4R.mulVec (m : Mat4R) (v : Vec4R) : Vec4R :=
  ⟨m.c0.x * v.x + m.c1.x * v.y + m.c2.x * v.z + m.c3.x * v.w,
   m.c0.y * v.x + m.c1.y * v.y + m.c2.y * v.z + m.c3.y * v.w,
   m.c0.z * v.x + m.c1.z * v.y + m.c2.z * v.z + m.c3.z * v.w,
   m.c0.w * v.x + m.c1.w * v.y + m.c2.w * v.z + m.c3.w * v.w⟩

def idMat4R : Mat4R :=
  ⟨⟨1, 0, 0, 0⟩, ⟨0, 1, 0, 0⟩, ⟨0, 0, 1, 0⟩, ⟨0, 0, 0, 1⟩⟩

/-- GLSL `dot` on vec3. -/
def dotR (a b : Vec3R) : ℝ :=
  a.x * b.x + a.y * b.y + a.z * b.z

/-- GLSL `normalize`: the vector divided by its Euclidean length. -/
noncomputable def normalizeR (v : Vec3R) : Vec3R :=
  let len := Real.sqrt (v.x ^ 2 + v.y ^ 2 + v.z ^ 2)
  ⟨v.x / len, v.y / len, v.z / len⟩

/-- GLSL `reflect(I, N) = I - 2 * dot(N, I) * N`. -/
def reflectR (i n : Vec3R) : Vec3R :=
  ⟨i.x - 2 * dotR n i * n.x,
   i.y - 2 * dotR n i * n.y,
   i.z - 2 * dotR n i * n.z⟩

/-- The `v_tex_coord` computed by the `CubemapShader` vertex shader:
`v_tex_coord = normalize((u_model * a_position).xyz);
 v_tex_coord.z = -v_tex_coord.z;`. -/
noncomputable def CubemapShader.vertexTexCoord (u_model : Mat4R) (a_position : Vec4R) :
    Vec3R :=
  let t := normalizeR (u_model.mulVec a_position).xyz
  ⟨t.x, t.y, -t.z⟩

/-- The spec's "naive (un-flipped) projected direction": the normalized
model-transformed position, with no z flip. -/
noncomputable def naiveProjectedDirection (u_model : Mat4R) (a_position : Vec4R) :
    Vec3R :=
  normalizeR (u_model.mulVec a_position).xyz

/-- The `v_tex_coord` computed by the `CubemapReflectionShader` vertex
shader, line by line:
`vec4 v_viewspace_position_vec4 = u_mv * a_position;
 vec3 v_viewspace_position = v_viewspace_position_vec4.xyz / v_viewspace_position_vec4.w;
 vec3 v_viewspace_normal = (u_mv_it * vec4(a_normal, 1.0)).xyz;
 vec3 v_reflected_position = reflect(v_viewspace_position, normalize(v_viewspace_normal));
 v_tex_coord = (u_view_i * vec4(v_reflected_position, 1.0)).xyz;
 v_tex_coord.z = -v_tex_coord.z;`. -/
noncomputable def CubemapReflectionShader.vertexTexCoord
    (u_mv u_mv_it u_view_i : Mat4R) (a_position : Vec4R) (a_normal : Vec3R) : Vec3R :=
  let v_viewspace_position_vec4 := u_mv.mulVec a_position
  let v_viewspace_position : Vec3R :=
    ⟨v_viewspace_position_vec4.x / v_viewspace_position_vec4.w,
     v_viewspace_position_vec4.y / v_viewspace_position_vec4.w,
     v_viewspace_position_vec4.z / v_viewspace_position_vec4.w⟩
  let v_viewspace_normal :=
    (u_mv_it.mulVec ⟨a_normal.x, a_normal.y, a_normal.z, 1⟩).xyz
  let v_reflected_position :=
    reflectR v_viewspace_position (normalizeR v_viewspace_normal)
  let t := (u_view_i.mulVec
    ⟨v_reflected_position.x, v_reflected_position.y, v_reflected_position.z, 1⟩).xyz
  ⟨t.x, t.y, -t.z⟩

/-- The texture coordinate as claim C5 words it: the same pipeline, but
with the reflected vector "transformed by the view-inverse matrix as a
direction vector", i.e. with homogeneous coordinate 0, so that the
matrix's translation column does not contribute. -/
noncomputable def claimedReflectionTexCoord
    (u_mv u_mv_it u_view_i : Mat4R) (a_position : Vec4R) (a_normal : Vec3R) : Vec3R :=
  let v_viewspace_position_vec4 := u_mv.mulVec a_position
  let v_viewspace_position : Vec3R :=
    ⟨v_viewspace_position_vec4.x / v_viewspace_position_vec4.w,
     v_viewspace_position_vec4.y / v_viewspace_position_vec4.w,
     v_viewspace_position_vec4.z / v_viewspace_position_vec4.w⟩
  let v_viewspace_normal :=
    (u_mv_it.mulVec ⟨a_normal.x, a_normal.y, a_normal.z, 1⟩).xyz
  let v_reflected_position :=
    reflectR v_viewspace_position (normalizeR v_viewspace_normal)
  let t := (u_view_i.mulVec
    ⟨v_reflected_position.x, v_reflected_position.y, v_reflected_position.z, 0⟩).xyz
  ⟨t.x, t.y, -t.z⟩

/-! ## GLSL fragment-stage arithmetic (rational layer) -/

/-- An rgba sample or output color. -/
structure ColorQ where
  r : ℚ
  g : ℚ
  b : ℚ
  a : ℚ
deriving DecidableEq

/-- The `v` texture coordinate the `UnlitVerticalStereoShader` fragment
shader samples at: `0.5 * (v_tex_coord.y + float(u_right))`. -/
def UnlitVerticalStereoShader.sampledV (v_tex_coord_y : ℚ) (u_right : Int) : ℚ :=
  (1 / 2) * (v_tex_coord_y + (u_right : ℚ))

/-- `gl_FragColor` of the `OESShader` fragment shader:
`vec4(color.r * u_color.r * u_opacity, color.g * u_color.g * u_opacity,
 color.b * u_color.b * u_opacity, color.a * u_opacity)`. -/
def OESShader.fragColor (color : ColorQ) (u_color : Vec3Q) (u_opacity : ℚ) : ColorQ :=
  ⟨color.r * u_color.x * u_opacity, color.g * u_color.y * u_opacity,
   color.b * u_color.z * u_opacity, color.a * u_opacity⟩

/-- `gl_FragColor` of the `CubemapShader` fragment shader. -/
def CubemapShader.fragColor (color : ColorQ) (u_color : Vec3Q) (u_opacity : ℚ) :
    ColorQ :=
  ⟨color.r * u_color.x * u_opacity, color.g * u_color.y * u_opacity,
   color.b * u_color.z * u_opacity, color.a * u_opacity⟩

/-- `gl_FragColor` of the `CubemapReflectionShader` fragment shader. -/
def CubemapReflectionShader.fragColor (color : ColorQ) (u_color : Vec3Q)
    (u_opacity : ℚ) : ColorQ :=
  ⟨color.r * u_color.x * u_opacity, color.g * u_color.y * u_opacity,
   color.b * u_color.z * u_opacity, color.a * u_opacity⟩

/-- `gl_FragColor` of the `UnlitVerticalStereoShader` fragment shader. -/
def UnlitVerticalStereoShader.fragColor (color : ColorQ) (u_color : Vec3Q)
    (u_opacity : ℚ) : ColorQ :=
  ⟨color.r * u_color.x * u_opacity, color.g * u_color.y * u_opacity,
   color.b * u_color.z * u_opacity, color.a * u_opacity⟩

/-- The claim C5 pipeline as amended: the reflected view-space vector is
transformed by the view-inverse matrix as a homogeneous point with
w = 1 (so the matrix's translation column contributes), then the z
component is negated. -/
noncomputable def amendedReflectionTexCoord
    (u_mv u_mv_it u_view_i : Mat4R) (a_position : Vec4R) (a_normal : Vec3R) : Vec3R :=
  let viewPosHom := u_mv.mulVec a_position
  let viewPos : Vec3R :=
    ⟨viewPosHom.x / viewPosHom.w, viewPosHom.y / viewPosHom.w,
     viewPosHom.z / viewPosHom.w⟩
  let viewNormal := (u_mv_it.mulVec ⟨a_normal.x, a_normal.y, a_normal.z, 1⟩).xyz
  let reflected := reflectR viewPos (normalizeR viewNormal)
  let world := (u_view_i.mulVec ⟨reflected.x, reflected.y, reflected.z, 1⟩).xyz
  ⟨world.x, world.y, -world.z⟩

/-! ## Concrete fixtures used by the witnesses -/

def idMat4Q : Mat4Q :=
  ⟨⟨1, 0, 0, 0⟩, ⟨0, 1, 0, 0⟩, ⟨0, 0, 1, 0⟩, ⟨0, 0, 0, 1⟩⟩

/-- A view-inverse matrix with a translation column, distinguishing a
point transform from a direction transform. -/
def transMat4R : Mat4R :=
  ⟨⟨1, 0, 0, 0⟩, ⟨0, 1, 0, 0⟩, ⟨0, 0, 1, 0⟩, ⟨5, 0, 0, 1⟩⟩

def texOES : Texture := ⟨GL_TEXTURE_EXTERNAL_OES, 7⟩

def texCube : Texture := ⟨GL_TEXTURE_CUBE_MAP, 8⟩

def tex2D : Texture := ⟨GL_TEXTURE_2D, 9⟩

/-- A texture whose target matches no variant. -/
def texNone : Texture := ⟨0, 11⟩

/-- A unit quad: 4 vertices, 2 triangles, 6 indices. -/
def quadMesh : Mesh :=
  ⟨[0, 0, 0, 1, 0, 0, 0, 1, 0, 1, 1, 0],
   [0, 0, 1, 0, 0, 1, 0, 0, 1, 0, 0, 1],
   [0, 0, 1, 0, 0, 1, 1, 1],
   [0, 1, 2, 1, 3, 2], 5⟩

/-- A material bag holding the given main texture, color (1, 1/2, 1/4)
and opacity 3/4. -/
def materialWith (t : Texture) : Material :=
  ⟨fun k => if k = MAIN_TEXTURE then .ok t else .error (.missing k),
   fun k => if k = COLOR then .ok ⟨1, 1 / 2, 1 / 4⟩ else .error (.missing k),
   fun k => if k = OPACITY then .ok (3 / 4) else .error (.missing k)⟩

def renderDataWith (t : Texture) : RenderData :=
  ⟨quadMesh, materialWith t⟩

/-- A material bag with no main texture. -/
def matNoTexture : Material :=
  ⟨fun k => .error (.missing k),
   fun k => if k = COLOR then .ok ⟨1, 1, 1⟩ else .error (.missing k),
   fun k => if k = OPACITY then .ok 1 else .error (.missing k)⟩

/-- A material bag with a main texture but no color entry. -/
def matNoColor (t : Texture) : Material :=
  ⟨fun k => if k = MAIN_TEXTURE then .ok t else .error (.missing k),
   fun k => .error (.missing k),
   fun k => if k = OPACITY then .ok 1 else .error (.missing k)⟩

/-- A material bag with a main texture and color but no opacity entry. -/
def matNoOpacity (t : Texture) : Material :=
  ⟨fun k => if k = MAIN_TEXTURE then .ok t else .error (.missing k),
   fun k => if k = COLOR then .ok ⟨1, 1, 1⟩ else .error (.missing k),
   fun k => .error (.missing k)⟩

def oesFix : OESShader := ⟨3, 0, 1, 2, 3, 4, 5⟩

def cubeFix : CubemapShader := ⟨3, 0, 1, 2, 3, 4, 5⟩

def reflFix : CubemapReflectionShader := ⟨3, 0, 1, 2, 3, 4, 5, 6, 7, 8⟩

def stereoFix : UnlitVerticalStereoShader := ⟨3, 0, 1, 2, 3, 4, 5, 6⟩

/-! ## Claim theorems -/

/-- Claim C3: in the VerticalStereo variant's fragment stage, the
sampled v coordinate equals `0.5 * (v + right)` where `right` is the 0
or 1 uploaded by `render`; hence for input v in [0, 1] the sampled
v-domain is exactly [0, 0.5] when `right = false` and exactly
[0.5, 1.0] when `right = true`. -/
theorem claim_C3_stereo_v_remap :
    (∀ (v : ℚ) (right : Bool),
      UnlitVerticalStereoShader.sampledV v (rightUniformValue right) =
        (1 / 2) * (v + (if right then 1 else 0))) ∧
    (∀ v : ℚ, 0 ≤ v → v ≤ 1 →
      0 ≤ UnlitVerticalStereoShader.sampledV v (rightUniformValue false) ∧
      UnlitVerticalStereoShader.sampledV v (rightUniformValue false) ≤ 1 / 2) ∧
    (∀ v : ℚ, 0 ≤ v → v ≤ 1 →
      1 / 2 ≤ UnlitVerticalStereoShader.sampledV v (rightUniformValue true) ∧
      UnlitVerticalStereoShader.sampledV v (rightUniformValue true) ≤ 1) ∧
    (∀ w : ℚ, 0 ≤ w → w ≤ 1 / 2 →
      ∃ v, 0 ≤ v ∧ v ≤ 1 ∧
        UnlitVerticalStereoShader.sampledV v (rightUniformValue false) = w) ∧
    (∀ w : ℚ, 1 / 2 ≤ w → w ≤ 1 →
      ∃ v, 0 ≤ v ∧ v ≤ 1 ∧
        UnlitVerticalStereoShader.sampledV v (rightUniformValue true) = w) := by
  refine ⟨?_, ?_, ?_, ?_, ?_⟩
  · intro v right
    cases right <;> simp [UnlitVerticalStereoShader.sampledV, rightUniformValue]
  · intro v h0 h1
    simp only [UnlitVerticalStereoShader.sampledV, rightUniformValue, if_neg,
      Bool.false_eq_true, not_false_iff, Int.cast_zero]
    constructor <;> linarith
  · intro v h0 h1
    simp only [UnlitVerticalStereoShader.sampledV, rightUniformValue, if_pos,
      Int.cast_one]
    constructor <;> linarith
  · intro w h0 h1
    refine ⟨2 * w, by linarith, by linarith, ?_⟩
    simp only [UnlitVerticalStereoShader.sampledV, rightUniformValue,
      Bool.false_eq_true, if_false, Int.cast_zero]
    ring
  · intro w h0 h1
    refine ⟨2 * w - 1, by linarith, by linarith, ?_⟩
    simp only [UnlitVerticalStereoShader.sampledV, rightUniformValue, if_true,
      Int.cast_one]
    ring

/-- Witness for C3 at v = 1/3: both halves evaluate to the claimed
remapped values and bounds. -/
theorem claim_C3_stereo_v_remap_witness :
    (0 ≤ gvr.UnlitVerticalStereoShader.sampledV (1 / 3) (gvr.rightUniformValue false) ∧
      gvr.UnlitVerticalStereoShader.sampledV (1 / 3) (gvr.rightUniformValue false) ≤ 1 / 2) ∧
    (1 / 2 ≤ gvr.UnlitVerticalStereoShader.sampledV (1 / 3) (gvr.rightUniformValue true) ∧
      gvr.UnlitVerticalStereoShader.sampledV (1 / 3) (gvr.rightUniformValue true) ≤ 1) :=
  ⟨claim_C3_stereo_v_remap.2.1 (1 / 3) (by norm_num) (by norm_num),
   claim_C3_stereo_v_remap.2.2.1 (1 / 3) (by norm_num) (by norm_num)⟩

/-- Claim C4: in the Cubemap variant's vertex stage, the
texture-coordinate direction equals `normalize((model * position).xyz)`
with its z component negated; in particular, under an identity model
transform its z component is the negation of the naive (un-flipped)
projected direction's z component. -/
theorem claim_C4_cubemap_texcoord_formula (u_model : Mat4R) (p : Vec4R) :
    CubemapShader.vertexTexCoord u_model p =
      ⟨(naiveProjectedDirection u_model p).x,
       (naiveProjectedDirection u_model p).y,
       -(naiveProjectedDirection u_model p).z⟩ ∧
    (CubemapShader.vertexTexCoord idMat4R p).z =
      -(naiveProjectedDirection idMat4R p).z :=
  ⟨rfl, rfl⟩

/-- Counterexample for C5 as stated: with identity modelView matrices, a
view-inverse carrying a translation, position (0,0,1,1) and normal
(0,0,1), the source's vertex stage (which transforms the reflected
vector as a homogeneous point with w = 1) disagrees with the claim's
"transformed ... as a direction vector" (w = 0). -/
theorem claim_C5_reflection_counterexample :
    CubemapReflectionShader.vertexTexCoord idMat4R idMat4R transMat4R
      ⟨0, 0, 1, 1⟩ ⟨0, 0, 1⟩ ≠
    claimedReflectionTexCoord idMat4R idMat4R transMat4R
      ⟨0, 0, 1, 1⟩ ⟨0, 0, 1⟩ := by
  have hcode : (CubemapReflectionShader.vertexTexCoord idMat4R idMat4R transMat4R
      ⟨0, 0, 1, 1⟩ ⟨0, 0, 1⟩).x = 5 := by
    simp only [CubemapReflectionShader.vertexTexCoord, Mat4R.mulVec, Vec4R.xyz,
      normalizeR, dotR, reflectR, idMat4R, transMat4R]
    norm_num
  have hclaim : (claimedReflectionTexCoord idMat4R idMat4R transMat4R
      ⟨0, 0, 1, 1⟩ ⟨0, 0, 1⟩).x = 0 := by
    simp only [claimedReflectionTexCoord, Mat4R.mulVec, Vec4R.xyz,
      normalizeR, dotR, reflectR, idMat4R, transMat4R]
    norm_num
  intro h
  rw [h, hclaim] at hcode
  norm_num at hcode

/-- Claim C5 as amended: in the CubemapReflection variant's vertex
stage, the view-space position is the perspective-divided
`mv * position`, the view-space normal is obtained via the
modelView-inverse-transpose matrix, and the texture coordinate is the
view-space position reflected about the normalized view-space normal,
then transformed by the view-inverse matrix as a homogeneous point with
w = 1, with its z component negated. -/
theorem claim_C5_reflection_amended (u_mv u_mv_it u_view_i : Mat4R)
    (p : Vec4R) (n : Vec3R) :
    CubemapReflectionShader.vertexTexCoord u_mv u_mv_it u_view_i p n =
      amendedReflectionTexCoord u_mv u_mv_it u_view_i p n :=
  rfl

/-- Claim C6: for all four variants, the fragment output color equals
`sample.rgb * color.rgb * opacity` in the rgb channels and
`sample.a * opacity` in the alpha channel. -/
theorem claim_C6_unlit_fragment_output (sample : ColorQ) (u_color : Vec3Q)
    (u_opacity : ℚ) :
    OESShader.fragColor sample u_color u_opacity =
      ⟨sample.r * u_color.x * u_opacity, sample.g * u_color.y * u_opacity,
       sample.b * u_color.z * u_opacity, sample.a * u_opacity⟩ ∧
    CubemapShader.fragColor sample u_color u_opacity =
      ⟨sample.r * u_color.x * u_opacity, sample.g * u_color.y * u_opacity,
       sample.b * u_color.z * u_opacity, sample.a * u_opacity⟩ ∧
    CubemapReflectionShader.fragColor sample u_color u_opacity =
      ⟨sample.r * u_color.x * u_opacity, sample.g * u_color.y * u_opacity,
       sample.b * u_color.z * u_opacity, sample.a * u_opacity⟩ ∧
    UnlitVerticalStereoShader.fragColor sample u_color u_opacity =
      ⟨sample.r * u_color.x * u_opacity, sample.g * u_color.y * u_opacity,
       sample.b * u_color.z * u_opacity, sample.a * u_opacity⟩ :=
  ⟨rfl, rfl, rfl, rfl⟩

theorem drawSigs_checkGlError (tag : String) (es : List Nat) :
    drawSigs (checkGlError tag es) = [] := by
  induction es with
  | nil => rfl
  | cons e es ih =>
      simp [drawSigs, checkGlError, GLCall.drawSignature]

theorem locates_checkGlError (tag : String) (es : List Nat) :
    locates (checkGlError tag es) = [] := by
  induction es with
  | nil => rfl
  | cons e es ih =>
      simp [locates, checkGlError, GLCall.locateName]

/-- Claim C1: for every variant and every render() call, if the
material's texture target does not equal the variant's required target
(CubeMap for CubemapShader and CubemapReflectionShader, ExternalOES for
OESShader, 2D for UnlitVerticalStereoShader), then render() fails with
the wrong-texture-target error and issues zero GPU commands. -/
theorem claim_C1_wrong_target_no_gpu_calls :
    (∀ (s : OESShader) (useGLES3 : Bool) (glErrors : List Nat) (mvp : Mat4Q)
      (rd : RenderData) (tex : Texture) (col : Vec3Q) (opa : ℚ),
      rd.material.getTexture MAIN_TEXTURE = .ok tex →
      rd.material.getVec3 COLOR = .ok col →
      rd.material.getFloat OPACITY = .ok opa →
      tex.target ≠ GL_TEXTURE_EXTERNAL_OES →
      s.render useGLES3 glErrors mvp rd =
        ⟨some (.wrongTextureTarget "OESShader::render : texture with wrong target"),
         []⟩) ∧
    (∀ (s : CubemapShader) (useGLES3 : Bool) (glErrors : List Nat)
      (model mvp : Mat4Q) (rd : RenderData) (tex : Texture) (col : Vec3Q) (opa : ℚ),
      rd.material.getTexture MAIN_TEXTURE = .ok tex →
      rd.material.getVec3 COLOR = .ok col →
      rd.material.getFloat OPACITY = .ok opa →
      tex.target ≠ GL_TEXTURE_CUBE_MAP →
      s.render useGLES3 glErrors model mvp rd =
        ⟨some (.wrongTextureTarget "CubemapShader::render : texture with wrong target"),
         []⟩) ∧
    (∀ (s : CubemapReflectionShader) (useGLES3 : Bool) (glErrors : List Nat)
      (mv mv_it view_i mvp : Mat4Q) (rd : RenderData) (tex : Texture)
      (col : Vec3Q) (opa : ℚ),
      rd.material.getTexture MAIN_TEXTURE = .ok tex →
      rd.material.getVec3 COLOR = .ok col →
      rd.material.getFloat OPACITY = .ok opa →
      tex.target ≠ GL_TEXTURE_CUBE_MAP →
      s.render useGLES3 glErrors mv mv_it view_i mvp rd =
        ⟨some (.wrongTextureTarget
          "CubemapReflectionShader::render : texture with wrong target"), []⟩) ∧
    (∀ (s : UnlitVerticalStereoShader) (useGLES3 : Bool) (glErrors : List Nat)
      (mvp : Mat4Q) (rd : RenderData) (right : Bool) (tex : Texture)
      (col : Vec3Q) (opa : ℚ),
      rd.material.getTexture MAIN_TEXTURE = .ok tex →
      rd.material.getVec3 COLOR = .ok col →
      rd.material.getFloat OPACITY = .ok opa →
      tex.target ≠ GL_TEXTURE_2D →
      s.render useGLES3 glErrors mvp rd right =
        ⟨some (.wrongTextureTarget
          "UnlitVerticalStereoShader::render : texture with wrong target"), []⟩) := by
  refine ⟨?_, ?_, ?_, ?_⟩
  · intro s useGLES3 glErrors mvp rd tex col opa htex hcol hopa htarget
    unfold OESShader.render
    rw [htex, hcol, hopa]
    simp [htarget]
  · intro s useGLES3 glErrors model mvp rd tex col opa htex hcol hopa htarget
    unfold CubemapShader.render
    rw [htex, hcol, hopa]
    simp [htarget]
  · intro s useGLES3 glErrors mv mv_it view_i mvp rd tex col opa htex hcol hopa htarget
    unfold CubemapReflectionShader.render
    rw [htex, hcol, hopa]
    simp [htarget]
  · intro s useGLES3 glErrors mvp rd right tex col opa htex hcol hopa htarget
    unfold UnlitVerticalStereoShader.render
    rw [htex, hcol, hopa]
    simp [htarget]

/-- Witness for C1: a texture with target 0 matches no variant; every
variant's render fails with its wrong-texture-target message and an
empty command trace. -/
theorem claim_C1_wrong_target_no_gpu_calls_witness :
    oesFix.render false [] idMat4Q (renderDataWith texNone) =
      ⟨some (.wrongTextureTarget "OESShader::render : texture with wrong target"),
       []⟩ ∧
    cubeFix.render false [] idMat4Q idMat4Q (renderDataWith texNone) =
      ⟨some (.wrongTextureTarget "CubemapShader::render : texture with wrong target"),
       []⟩ ∧
    reflFix.render false [] idMat4Q idMat4Q idMat4Q idMat4Q (renderDataWith texNone) =
      ⟨some (.wrongTextureTarget
        "CubemapReflectionShader::render : texture with wrong target"), []⟩ ∧
    stereoFix.render false [] idMat4Q (renderDataWith texNone) false =
      ⟨some (.wrongTextureTarget
        "UnlitVerticalStereoShader::render : texture with wrong target"), []⟩ :=
  ⟨claim_C1_wrong_target_no_gpu_calls.1 oesFix false [] idMat4Q
    (renderDataWith texNone) texNone ⟨1, 1 / 2, 1 / 4⟩ (3 / 4) rfl rfl rfl
    (by decide),
   claim_C1_wrong_target_no_gpu_calls.2.1 cubeFix false [] idMat4Q idMat4Q
    (renderDataWith texNone) texNone ⟨1, 1 / 2, 1 / 4⟩ (3 / 4) rfl rfl rfl
    (by decide),
   claim_C1_wrong_target_no_gpu_calls.2.2.1 reflFix false [] idMat4Q idMat4Q
    idMat4Q idMat4Q (renderDataWith texNone) texNone ⟨1, 1 / 2, 1 / 4⟩ (3 / 4)
    rfl rfl rfl (by decide),
   claim_C1_wrong_target_no_gpu_calls.2.2.2 stereoFix false [] idMat4Q
    (renderDataWith texNone) false texNone ⟨1, 1 / 2, 1 / 4⟩ (3 / 4) rfl rfl rfl
    (by decide)⟩

/-- Claim C2: for every variant, a render() call whose texture target
matches the variant's required target issues exactly one indexed draw
call, with triangle-list topology, 16-bit unsigned indices, and an
index count equal to the mesh's triangle-index sequence length. -/
theorem claim_C2_matching_target_one_draw_call :
    (∀ (s : OESShader) (useGLES3 : Bool) (glErrors : List Nat) (mvp : Mat4Q)
      (rd : RenderData) (tex : Texture) (col : Vec3Q) (opa : ℚ),
      rd.material.getTexture MAIN_TEXTURE = .ok tex →
      rd.material.getVec3 COLOR = .ok col →
      rd.material.getFloat OPACITY = .ok opa →
      tex.target = GL_TEXTURE_EXTERNAL_OES →
      drawSigs (s.render useGLES3 glErrors mvp rd).calls =
        [(GL_TRIANGLES, rd.mesh.triangles.length, GL_UNSIGNED_SHORT)]) ∧
    (∀ (s : CubemapShader) (useGLES3 : Bool) (glErrors : List Nat)
      (model mvp : Mat4Q) (rd : RenderData) (tex : Texture) (col : Vec3Q) (opa : ℚ),
      rd.material.getTexture MAIN_TEXTURE = .ok tex →
      rd.material.getVec3 COLOR = .ok col →
      rd.material.getFloat OPACITY = .ok opa →
      tex.target = GL_TEXTURE_CUBE_MAP →
      drawSigs (s.render useGLES3 glErrors model mvp rd).calls =
        [(GL_TRIANGLES, rd.mesh.triangles.length, GL_UNSIGNED_SHORT)]) ∧
    (∀ (s : CubemapReflectionShader) (useGLES3 : Bool) (glErrors : List Nat)
      (mv mv_it view_i mvp : Mat4Q) (rd : RenderData) (tex : Texture)
      (col : Vec3Q) (opa : ℚ),
      rd.material.getTexture MAIN_TEXTURE = .ok tex →
      rd.material.getVec3 COLOR = .ok col →
      rd.material.getFloat OPACITY = .ok opa →
      tex.target = GL_TEXTURE_CUBE_MAP →
      drawSigs (s.render useGLES3 glErrors mv mv_it view_i mvp rd).calls =
        [(GL_TRIANGLES, rd.mesh.triangles.length, GL_UNSIGNED_SHORT)]) ∧
    (∀ (s : UnlitVerticalStereoShader) (useGLES3 : Bool) (glErrors : List Nat)
      (mvp : Mat4Q) (rd : RenderData) (right : Bool) (tex : Texture)
      (col : Vec3Q) (opa : ℚ),
      rd.material.getTexture MAIN_TEXTURE = .ok tex →
      rd.material.getVec3 COLOR = .ok col →
      rd.material.getFloat OPACITY = .ok opa →
      tex.target = GL_TEXTURE_2D →
      drawSigs (s.render useGLES3 glErrors mvp rd right).calls =
        [(GL_TRIANGLES, rd.mesh.triangles.length, GL_UNSIGNED_SHORT)]) := by
  refine ⟨?_, ?_, ?_, ?_⟩
  · intro s useGLES3 glErrors mvp rd tex col opa htex hcol hopa htarget
    unfold OESShader.render
    rw [htex, hcol, hopa]
    cases useGLES3 <;>
      simp [htarget, drawSigs, GLCall.drawSignature, checkGlError,
        List.filterMap_append]
  · intro s useGLES3 glErrors model mvp rd tex col opa htex hcol hopa htarget
    unfold CubemapShader.render
    rw [htex, hcol, hopa]
    cases useGLES3 <;>
      simp [htarget, drawSigs, GLCall.drawSignature, checkGlError,
        List.filterMap_append]
  · intro s useGLES3 glErrors mv mv_it view_i mvp rd tex col opa htex hcol hopa htarget
    unfold CubemapReflectionShader.render
    rw [htex, hcol, hopa]
    cases useGLES3 <;>
      simp [htarget, drawSigs, GLCall.drawSignature, checkGlError,
        List.filterMap_append]
  · intro s useGLES3 glErrors mvp rd right tex col opa htex hcol hopa htarget
    unfold UnlitVerticalStereoShader.render
    rw [htex, hcol, hopa]
    cases useGLES3 <;>
      simp [htarget, drawSigs, GLCall.drawSignature, checkGlError,
        List.filterMap_append]

/-- Witness for C2: on the unit-quad fixture (6 indices) with a
matching texture, each variant issues exactly one triangle-list,
16-bit-index draw call with index count 6, on both binding paths. -/
theorem claim_C2_matching_target_one_draw_call_witness :
    drawSigs (oesFix.render false [2] idMat4Q (renderDataWith texOES)).calls =
      [(GL_TRIANGLES, 6, GL_UNSIGNED_SHORT)] ∧
    drawSigs (cubeFix.render true [] idMat4Q idMat4Q (renderDataWith texCube)).calls =
      [(GL_TRIANGLES, 6, GL_UNSIGNED_SHORT)] ∧
    drawSigs (reflFix.render false [] idMat4Q idMat4Q idMat4Q idMat4Q
        (renderDataWith texCube)).calls =
      [(GL_TRIANGLES, 6, GL_UNSIGNED_SHORT)] ∧
    drawSigs (stereoFix.render true [7] idMat4Q (renderDataWith tex2D) true).calls =
      [(GL_TRIANGLES, 6, GL_UNSIGNED_SHORT)] :=
  ⟨claim_C2_matching_target_one_draw_call.1 oesFix false [2] idMat4Q
    (renderDataWith texOES) texOES ⟨1, 1 / 2, 1 / 4⟩ (3 / 4) rfl rfl rfl rfl,
   claim_C2_matching_target_one_draw_call.2.1 cubeFix true [] idMat4Q idMat4Q
    (renderDataWith texCube) texCube ⟨1, 1 / 2, 1 / 4⟩ (3 / 4) rfl rfl rfl rfl,
   claim_C2_matching_target_one_draw_call.2.2.1 reflFix false [] idMat4Q idMat4Q
    idMat4Q idMat4Q (renderDataWith texCube) texCube ⟨1, 1 / 2, 1 / 4⟩ (3 / 4)
    rfl rfl rfl rfl,
   claim_C2_matching_target_one_draw_call.2.2.2 stereoFix true [7] idMat4Q
    (renderDataWith tex2D) true tex2D ⟨1, 1 / 2, 1 / 4⟩ (3 / 4) rfl rfl rfl rfl⟩

/-- Claim C7: for every variant, calling recycle() twice, or destroying
the variant after an explicit recycle(), releases the owned Program
exactly once and never double-releases it; after the first recycle()
the program handle is null. -/
theorem claim_C7_recycle_idempotent :
    (∀ s : OESShader, s.program_ ≠ 0 →
      s.recycle.1.program_ = 0 ∧
      releases (s.recycle.2 ++ s.recycle.1.recycle.2) = [s.program_] ∧
      releases (s.recycle.2 ++ s.recycle.1.destroy.2) = [s.program_]) ∧
    (∀ s : CubemapShader, s.program_ ≠ 0 →
      s.recycle.1.program_ = 0 ∧
      releases (s.recycle.2 ++ s.recycle.1.recycle.2) = [s.program_] ∧
      releases (s.recycle.2 ++ s.recycle.1.destroy.2) = [s.program_]) ∧
    (∀ s : CubemapReflectionShader, s.program_ ≠ 0 →
      s.recycle.1.program_ = 0 ∧
      releases (s.recycle.2 ++ s.recycle.1.recycle.2) = [s.program_] ∧
      releases (s.recycle.2 ++ s.recycle.1.destroy.2) = [s.program_]) ∧
    (∀ s : UnlitVerticalStereoShader, s.program_ ≠ 0 →
      s.recycle.1.program_ = 0 ∧
      releases (s.recycle.2 ++ s.recycle.1.recycle.2) = [s.program_] ∧
      releases (s.recycle.2 ++ s.recycle.1.destroy.2) = [s.program_]) := by
  refine ⟨?_, ?_, ?_, ?_⟩
  · intro s h
    simp [OESShader.recycle, OESShader.destroy, deleteProgram, releases, h]
  · intro s h
    simp [CubemapShader.recycle, CubemapShader.destroy, deleteProgram, releases, h]
  · intro s h
    simp [CubemapReflectionShader.recycle, CubemapReflectionShader.destroy,
      deleteProgram, releases, h]
  · intro s h
    simp [UnlitVerticalStereoShader.recycle, UnlitVerticalStereoShader.destroy,
      deleteProgram, releases, h]

/-- Witness for C7: on the concrete fixtures (program id 3), recycling
twice and recycling-then-destroying each release program 3 exactly
once, and the handle is null after the first recycle. -/
theorem claim_C7_recycle_idempotent_witness :
    (oesFix.recycle.1.program_ = 0 ∧
      releases (oesFix.recycle.2 ++ oesFix.recycle.1.recycle.2) = [oesFix.program_] ∧
      releases (oesFix.recycle.2 ++ oesFix.recycle.1.destroy.2) = [oesFix.program_]) ∧
    (cubeFix.recycle.1.program_ = 0 ∧
      releases (cubeFix.recycle.2 ++ cubeFix.recycle.1.recycle.2) = [cubeFix.program_] ∧
      releases (cubeFix.recycle.2 ++ cubeFix.recycle.1.destroy.2) = [cubeFix.program_]) ∧
    (reflFix.recycle.1.program_ = 0 ∧
      releases (reflFix.recycle.2 ++ reflFix.recycle.1.recycle.2) = [reflFix.program_] ∧
      releases (reflFix.recycle.2 ++ reflFix.recycle.1.destroy.2) = [reflFix.program_]) ∧
    (stereoFix.recycle.1.program_ = 0 ∧
      releases (stereoFix.recycle.2 ++ stereoFix.recycle.1.recycle.2) =
        [stereoFix.program_] ∧
      releases (stereoFix.recycle.2 ++ stereoFix.recycle.1.destroy.2) =
        [stereoFix.program_]) :=
  ⟨claim_C7_recycle_idempotent.1 oesFix (by decide),
   claim_C7_recycle_idempotent.2.1 cubeFix (by decide),
   claim_C7_recycle_idempotent.2.2.1 reflFix (by decide),
   claim_C7_recycle_idempotent.2.2.2 stereoFix (by decide)⟩

/-- Claim C8: for every variant and every render() call that passes the
texture-target check, the GPU-error check after the draw sequence only
logs: render() completes with no error for every possible observed GL
error state, and the trace differs from the no-error trace only by the
appended log entries. -/
theorem claim_C8_gl_error_check_never_fails :
    (∀ (s : OESShader) (useGLES3 : Bool) (glErrors : List Nat) (mvp : Mat4Q)
      (rd : RenderData) (tex : Texture) (col : Vec3Q) (opa : ℚ),
      rd.material.getTexture MAIN_TEXTURE = .ok tex →
      rd.material.getVec3 COLOR = .ok col →
      rd.material.getFloat OPACITY = .ok opa →
      tex.target = GL_TEXTURE_EXTERNAL_OES →
      (s.render useGLES3 glErrors mvp rd).error = none ∧
      (s.render useGLES3 glErrors mvp rd).calls =
        (s.render useGLES3 [] mvp rd).calls ++
          checkGlError "OESShader::render" glErrors) ∧
    (∀ (s : CubemapShader) (useGLES3 : Bool) (glErrors : List Nat)
      (model mvp : Mat4Q) (rd : RenderData) (tex : Texture) (col : Vec3Q) (opa : ℚ),
      rd.material.getTexture MAIN_TEXTURE = .ok tex →
      rd.material.getVec3 COLOR = .ok col →
      rd.material.getFloat OPACITY = .ok opa →
      tex.target = GL_TEXTURE_CUBE_MAP →
      (s.render useGLES3 glErrors model mvp rd).error = none ∧
      (s.render useGLES3 glErrors model mvp rd).calls =
        (s.render useGLES3 [] model mvp rd).calls ++
          checkGlError "CubemapShader::render" glErrors) ∧
    (∀ (s : CubemapReflectionShader) (useGLES3 : Bool) (glErrors : List Nat)
      (mv mv_it view_i mvp : Mat4Q) (rd : RenderData) (tex : Texture)
      (col : Vec3Q) (opa : ℚ),
      rd.material.getTexture MAIN_TEXTURE = .ok tex →
      rd.material.getVec3 COLOR = .ok col →
      rd.material.getFloat OPACITY = .ok opa →
      tex.target = GL_TEXTURE_CUBE_MAP →
      (s.render useGLES3 glErrors mv mv_it view_i mvp rd).error = none ∧
      (s.render useGLES3 glErrors mv mv_it view_i mvp rd).calls =
        (s.render useGLES3 [] mv mv_it view_i mvp rd).calls ++
          checkGlError "CubemapReflectionShader::render" glErrors) ∧
    (∀ (s : UnlitVerticalStereoShader) (useGLES3 : Bool) (glErrors : List Nat)
      (mvp : Mat4Q) (rd : RenderData) (right : Bool) (tex : Texture)
      (col : Vec3Q) (opa : ℚ),
      rd.material.getTexture MAIN_TEXTURE = .ok tex →
      rd.material.getVec3 COLOR = .ok col →
      rd.material.getFloat OPACITY = .ok opa →
      tex.target = GL_TEXTURE_2D →
      (s.render useGLES3 glErrors mvp rd right).error = none ∧
      (s.render useGLES3 glErrors mvp rd right).calls =
        (s.render useGLES3 [] mvp rd right).calls ++
          checkGlError "UnlitShader::render" glErrors) := by
  refine ⟨?_, ?_, ?_, ?_⟩
  · intro s useGLES3 glErrors mvp rd tex col opa htex hcol hopa htarget
    unfold OESShader.render
    rw [htex, hcol, hopa]
    cases useGLES3 <;> simp [htarget, checkGlError]
  · intro s useGLES3 glErrors model mvp rd tex col opa htex hcol hopa htarget
    unfold CubemapShader.render
    rw [htex, hcol, hopa]
    cases useGLES3 <;> simp [htarget, checkGlError]
  · intro s useGLES3 glErrors mv mv_it view_i mvp rd tex col opa htex hcol hopa htarget
    unfold CubemapReflectionShader.render
    rw [htex, hcol, hopa]
    cases useGLES3 <;> simp [htarget, checkGlError]
  · intro s useGLES3 glErrors mvp rd right tex col opa htex hcol hopa htarget
    unfold UnlitVerticalStereoShader.render
    rw [htex, hcol, hopa]
    cases useGLES3 <;> simp [htarget, checkGlError]

/-- Witness for C8: with two pending GL errors observed by the check,
each variant's render still completes with no error and its trace is
the no-error trace plus the two log entries. -/
theorem claim_C8_gl_error_check_never_fails_witness :
    ((oesFix.render false [1281, 1282] idMat4Q (renderDataWith texOES)).error = none ∧
      (oesFix.render false [1281, 1282] idMat4Q (renderDataWith texOES)).calls =
        (oesFix.render false [] idMat4Q (renderDataWith texOES)).calls ++
          checkGlError "OESShader::render" [1281, 1282]) ∧
    ((cubeFix.render true [1281, 1282] idMat4Q idMat4Q
        (renderDataWith texCube)).error = none ∧
      (cubeFix.render true [1281, 1282] idMat4Q idMat4Q
        (renderDataWith texCube)).calls =
        (cubeFix.render true [] idMat4Q idMat4Q (renderDataWith texCube)).calls ++
          checkGlError "CubemapShader::render" [1281, 1282]) ∧
    ((reflFix.render false [1281, 1282] idMat4Q idMat4Q idMat4Q idMat4Q
        (renderDataWith texCube)).error = none ∧
      (reflFix.render false [1281, 1282] idMat4Q idMat4Q idMat4Q idMat4Q
        (renderDataWith texCube)).calls =
        (reflFix.render false [] idMat4Q idMat4Q idMat4Q idMat4Q
          (renderDataWith texCube)).calls ++
          checkGlError "CubemapReflectionShader::render" [1281, 1282]) ∧
    ((stereoFix.render true [1281, 1282] idMat4Q (renderDataWith tex2D) false).error =
        none ∧
      (stereoFix.render true [1281, 1282] idMat4Q (renderDataWith tex2D) false).calls =
        (stereoFix.render true [] idMat4Q (renderDataWith tex2D) false).calls ++
          checkGlError "UnlitShader::render" [1281, 1282]) :=
  ⟨claim_C8_gl_error_check_never_fails.1 oesFix false [1281, 1282] idMat4Q
    (renderDataWith texOES) texOES ⟨1, 1 / 2, 1 / 4⟩ (3 / 4) rfl rfl rfl rfl,
   claim_C8_gl_error_check_never_fails.2.1 cubeFix true [1281, 1282] idMat4Q idMat4Q
    (renderDataWith texCube) texCube ⟨1, 1 / 2, 1 / 4⟩ (3 / 4) rfl rfl rfl rfl,
   claim_C8_gl_error_check_never_fails.2.2.1 reflFix false [1281, 1282] idMat4Q
    idMat4Q idMat4Q idMat4Q (renderDataWith texCube) texCube ⟨1, 1 / 2, 1 / 4⟩
    (3 / 4) rfl rfl rfl rfl,
   claim_C8_gl_error_check_never_fails.2.2.2 stereoFix true [1281, 1282] idMat4Q
    (renderDataWith tex2D) false tex2D ⟨1, 1 / 2, 1 / 4⟩ (3 / 4) rfl rfl rfl rfl⟩

theorem applyCall_sentinel (st : GLState) (c : GLCall)
    (h : c.bindLoc = some (-1)) : applyCall st c = st := by
  cases c <;> simp [GLCall.bindLoc] at h <;> simp [applyCall, h]

/-- Claim C9: for every variant, attribute and uniform location handles
are resolved exactly once, at construction (the construction trace
resolves exactly the variant's name list, each name once), and never
re-resolved afterwards (a render trace contains no resolution call);
and a binding command whose resolved handle is the sentinel -1 leaves
the location-addressed GL state unchanged (do-not-bind) rather than
crashing. -/
theorem claim_C9_locations_resolved_once_sentinel_safe :
    (∀ (pid : Nat) (locAttrib locUniform : Nat → String → Int)
      (useGLES3 : Bool) (glErrors : List Nat) (mvp : Mat4Q) (rd : RenderData),
      locates (OESShader.construct pid locAttrib locUniform).2 =
        [A_POSITION, A_TEX_COORD, U_MVP, U_TEXTURE, U_COLOR, U_OPACITY] ∧
      ([A_POSITION, A_TEX_COORD, U_MVP, U_TEXTURE, U_COLOR, U_OPACITY] :
        List String).Nodup ∧
      locates ((OESShader.construct pid locAttrib locUniform).1.render
        useGLES3 glErrors mvp rd).calls = [] ∧
      (∀ (st : GLState) (c : GLCall),
        c ∈ ((OESShader.construct pid locAttrib locUniform).1.render
          useGLES3 glErrors mvp rd).calls →
        c.bindLoc = some (-1) → applyCall st c = st)) ∧
    (∀ (pid : Nat) (locAttrib locUniform : Nat → String → Int)
      (useGLES3 : Bool) (glErrors : List Nat) (model mvp : Mat4Q) (rd : RenderData),
      locates (CubemapShader.construct pid locAttrib locUniform).2 =
        [A_POSITION, U_MODEL, U_MVP, U_TEXTURE, U_COLOR, U_OPACITY] ∧
      ([A_POSITION, U_MODEL, U_MVP, U_TEXTURE, U_COLOR, U_OPACITY] :
        List String).Nodup ∧
      locates ((CubemapShader.construct pid locAttrib locUniform).1.render
        useGLES3 glErrors model mvp rd).calls = [] ∧
      (∀ (st : GLState) (c : GLCall),
        c ∈ ((CubemapShader.construct pid locAttrib locUniform).1.render
          useGLES3 glErrors model mvp rd).calls →
        c.bindLoc = some (-1) → applyCall st c = st)) ∧
    (∀ (pid : Nat) (locAttrib locUniform : Nat → String → Int)
      (useGLES3 : Bool) (glErrors : List Nat) (mv mv_it view_i mvp : Mat4Q)
      (rd : RenderData),
      locates (CubemapReflectionShader.construct pid locAttrib locUniform).2 =
        [A_POSITION, A_NORMAL, U_MV, U_MV_IT, U_MVP, U_VIEW_I, U_TEXTURE,
         U_COLOR, U_OPACITY] ∧
      ([A_POSITION, A_NORMAL, U_MV, U_MV_IT, U_MVP, U_VIEW_I, U_TEXTURE,
        U_COLOR, U_OPACITY] : List String).Nodup ∧
      locates ((CubemapReflectionShader.construct pid locAttrib locUniform).1.render
        useGLES3 glErrors mv mv_it view_i mvp rd).calls = [] ∧
      (∀ (st : GLState) (c : GLCall),
        c ∈ ((CubemapReflectionShader.construct pid locAttrib locUniform).1.render
          useGLES3 glErrors mv mv_it view_i mvp rd).calls →
        c.bindLoc = some (-1) → applyCall st c = st)) ∧
    (∀ (pid : Nat) (locAttrib locUniform : Nat → String → Int)
      (useGLES3 : Bool) (glErrors : List Nat) (mvp : Mat4Q) (rd : RenderData)
      (right : Bool),
      locates (UnlitVerticalStereoShader.construct pid locAttrib locUniform).2 =
        [A_POSITION, A_TEX_COORD, U_MVP, U_TEXTURE, U_COLOR, U_OPACITY, U_RIGHT] ∧
      ([A_POSITION, A_TEX_COORD, U_MVP, U_TEXTURE, U_COLOR, U_OPACITY, U_RIGHT] :
        List String).Nodup ∧
      locates ((UnlitVerticalStereoShader.construct pid locAttrib locUniform).1.render
        useGLES3 glErrors mvp rd right).calls = [] ∧
      (∀ (st : GLState) (c : GLCall),
        c ∈ ((UnlitVerticalStereoShader.construct pid locAttrib locUniform).1.render
          useGLES3 glErrors mvp rd right).calls →
        c.bindLoc = some (-1) → applyCall st c = st)) := by
  refine ⟨?_, ?_, ?_, ?_⟩
  · intro pid locAttrib locUniform useGLES3 glErrors mvp rd
    refine ⟨rfl, by decide, ?_, fun st c _ hl => applyCall_sentinel st c hl⟩
    unfold OESShader.render
    repeat' split
    all_goals
      simp [locates, checkGlError, GLCall.locateName, List.filterMap_append]
  · intro pid locAttrib locUniform useGLES3 glErrors model mvp rd
    refine ⟨rfl, by decide, ?_, fun st c _ hl => applyCall_sentinel st c hl⟩
    unfold CubemapShader.render
    repeat' split
    all_goals
      simp [locates, checkGlError, GLCall.locateName, List.filterMap_append]
  · intro pid locAttrib locUniform useGLES3 glErrors mv mv_it view_i mvp rd
    refine ⟨rfl, by decide, ?_, fun st c _ hl => applyCall_sentinel st c hl⟩
    unfold CubemapReflectionShader.render
    repeat' split
    all_goals
      simp [locates, checkGlError, GLCall.locateName, List.filterMap_append]
  · intro pid locAttrib locUniform useGLES3 glErrors mvp rd right
    refine ⟨rfl, by decide, ?_, fun st c _ hl => applyCall_sentinel st c hl⟩
    unfold UnlitVerticalStereoShader.render
    repeat' split
    all_goals
      simp [locates, checkGlError, GLCall.locateName, List.filterMap_append]

/-- Witness for C9: constructing an OESShader whose every location
resolves to -1 records exactly the six resolution calls; its render
trace contains no resolution call; and the texture-sampler uniform
upload at location -1 (a member of that trace) leaves the empty GL
state unchanged. -/
theorem claim_C9_locations_resolved_once_sentinel_safe_witness :
    locates (gvr.OESShader.construct 3 (fun _ _ => -1) (fun _ _ => -1)).2 =
      [gvr.A_POSITION, gvr.A_TEX_COORD, gvr.U_MVP, gvr.U_TEXTURE, gvr.U_COLOR,
       gvr.U_OPACITY] ∧
    locates ((gvr.OESShader.construct 3 (fun _ _ => -1) (fun _ _ => -1)).1.render
      false [] idMat4Q (renderDataWith texOES)).calls = [] ∧
    applyCall ⟨[], [], []⟩ (GLCall.uniform1i (-1) 0) = ⟨[], [], []⟩ :=
  have h := claim_C9_locations_resolved_once_sentinel_safe.1 3
    (fun _ _ => -1) (fun _ _ => -1) false [] idMat4Q (renderDataWith texOES)
  ⟨h.1, h.2.2.1,
   h.2.2.2 ⟨[], [], []⟩ (GLCall.uniform1i (-1) 0) (by decide) rfl⟩

/-- Claim C10: for every variant, render() invokes getTexture,
getVec3 and getFloat (and reads the mesh) before the texture-target
check, so a failure in any of them propagates as that accessor's error
with no GPU command issued — even when the texture target mismatches
and the call would otherwise abort with the wrong-texture-target
error. -/
theorem claim_C10_material_reads_precede_target_check :
    (∀ (s : OESShader) (useGLES3 : Bool) (glErrors : List Nat) (mvp : Mat4Q)
      (rd : RenderData) (e : MatErr),
      (rd.material.getTexture MAIN_TEXTURE = .error e →
        s.render useGLES3 glErrors mvp rd = ⟨some (.materialError e), []⟩) ∧
      (∀ tex, rd.material.getTexture MAIN_TEXTURE = .ok tex →
        rd.material.getVec3 COLOR = .error e →
        s.render useGLES3 glErrors mvp rd = ⟨some (.materialError e), []⟩) ∧
      (∀ tex col, rd.material.getTexture MAIN_TEXTURE = .ok tex →
        rd.material.getVec3 COLOR = .ok col →
        rd.material.getFloat OPACITY = .error e →
        s.render useGLES3 glErrors mvp rd = ⟨some (.materialError e), []⟩)) ∧
    (∀ (s : CubemapShader) (useGLES3 : Bool) (glErrors : List Nat)
      (model mvp : Mat4Q) (rd : RenderData) (e : MatErr),
      (rd.material.getTexture MAIN_TEXTURE = .error e →
        s.render useGLES3 glErrors model mvp rd = ⟨some (.materialError e), []⟩) ∧
      (∀ tex, rd.material.getTexture MAIN_TEXTURE = .ok tex →
        rd.material.getVec3 COLOR = .error e →
        s.render useGLES3 glErrors model mvp rd = ⟨some (.materialError e), []⟩) ∧
      (∀ tex col, rd.material.getTexture MAIN_TEXTURE = .ok tex →
        rd.material.getVec3 COLOR = .ok col →
        rd.material.getFloat OPACITY = .error e →
        s.render useGLES3 glErrors model mvp rd = ⟨some (.materialError e), []⟩)) ∧
    (∀ (s : CubemapReflectionShader) (useGLES3 : Bool) (glErrors : List Nat)
      (mv mv_it view_i mvp : Mat4Q) (rd : RenderData) (e : MatErr),
      (rd.material.getTexture MAIN_TEXTURE = .error e →
        s.render useGLES3 glErrors mv mv_it view_i mvp rd =
          ⟨some (.materialError e), []⟩) ∧
      (∀ tex, rd.material.getTexture MAIN_TEXTURE = .ok tex →
        rd.material.getVec3 COLOR = .error e →
        s.render useGLES3 glErrors mv mv_it view_i mvp rd =
          ⟨some (.materialError e), []⟩) ∧
      (∀ tex col, rd.material.getTexture MAIN_TEXTURE = .ok tex →
        rd.material.getVec3 COLOR = .ok col →
        rd.material.getFloat OPACITY = .error e →
        s.render useGLES3 glErrors mv mv_it view_i mvp rd =
          ⟨some (.materialError e), []⟩)) ∧
    (∀ (s : UnlitVerticalStereoShader) (useGLES3 : Bool) (glErrors : List Nat)
      (mvp : Mat4Q) (rd : RenderData) (right : Bool) (e : MatErr),
      (rd.material.getTexture MAIN_TEXTURE = .error e →
        s.render useGLES3 glErrors mvp rd right = ⟨some (.materialError e), []⟩) ∧
      (∀ tex, rd.material.getTexture MAIN_TEXTURE = .ok tex →
        rd.material.getVec3 COLOR = .error e →
        s.render useGLES3 glErrors mvp rd right = ⟨some (.materialError e), []⟩) ∧
      (∀ tex col, rd.material.getTexture MAIN_TEXTURE = .ok tex →
        rd.material.getVec3 COLOR = .ok col →
        rd.material.getFloat OPACITY = .error e →
        s.render useGLES3 glErrors mvp rd right = ⟨some (.materialError e), []⟩)) := by
  refine ⟨?_, ?_, ?_, ?_⟩
  · intro s useGLES3 glErrors mvp rd e
    refine ⟨fun h1 => ?_, fun tex h1 h2 => ?_, fun tex col h1 h2 h3 => ?_⟩
    · unfold OESShader.render
      rw [h1]
    · unfold OESShader.render
      rw [h1, h2]
    · unfold OESShader.render
      rw [h1, h2, h3]
  · intro s useGLES3 glErrors model mvp rd e
    refine ⟨fun h1 => ?_, fun tex h1 h2 => ?_, fun tex col h1 h2 h3 => ?_⟩
    · unfold CubemapShader.render
      rw [h1]
    · unfold CubemapShader.render
      rw [h1, h2]
    · unfold CubemapShader.render
      rw [h1, h2, h3]
  · intro s useGLES3 glErrors mv mv_it view_i mvp rd e
    refine ⟨fun h1 => ?_, fun tex h1 h2 => ?_, fun tex col h1 h2 h3 => ?_⟩
    · unfold CubemapReflectionShader.render
      rw [h1]
    · unfold CubemapReflectionShader.render
      rw [h1, h2]
    · unfold CubemapReflectionShader.render
      rw [h1, h2, h3]
  · intro s useGLES3 glErrors mvp rd right e
    refine ⟨fun h1 => ?_, fun tex h1 h2 => ?_, fun tex col h1 h2 h3 => ?_⟩
    · unfold UnlitVerticalStereoShader.render
      rw [h1]
    · unfold UnlitVerticalStereoShader.render
      rw [h1, h2]
    · unfold UnlitVerticalStereoShader.render
      rw [h1, h2, h3]

/-- Witness for C10: with a texture whose target matches no variant, a
material missing its texture, color, or opacity entry makes each
variant's render fail with that accessor's error and an empty trace —
the wrong-texture-target error is never reached. -/
theorem claim_C10_material_reads_precede_target_check_witness :
    (oesFix.render false [] idMat4Q ⟨quadMesh, matNoTexture⟩ =
      ⟨some (.materialError (.missing MAIN_TEXTURE)), []⟩ ∧
     oesFix.render false [] idMat4Q ⟨quadMesh, matNoColor texNone⟩ =
      ⟨some (.materialError (.missing COLOR)), []⟩ ∧
     oesFix.render false [] idMat4Q ⟨quadMesh, matNoOpacity texNone⟩ =
      ⟨some (.materialError (.missing OPACITY)), []⟩) ∧
    cubeFix.render false [] idMat4Q idMat4Q ⟨quadMesh, matNoTexture⟩ =
      ⟨some (.materialError (.missing MAIN_TEXTURE)), []⟩ ∧
    reflFix.render false [] idMat4Q idMat4Q idMat4Q idMat4Q
        ⟨quadMesh, matNoColor texNone⟩ =
      ⟨some (.materialError (.missing COLOR)), []⟩ ∧
    stereoFix.render false [] idMat4Q ⟨quadMesh, matNoOpacity texNone⟩ true =
      ⟨some (.materialError (.missing OPACITY)), []⟩ :=
  ⟨⟨(claim_C10_material_reads_precede_target_check.1 oesFix false [] idMat4Q
      ⟨quadMesh, matNoTexture⟩ (.missing MAIN_TEXTURE)).1 rfl,
    (claim_C10_material_reads_precede_target_check.1 oesFix false [] idMat4Q
      ⟨quadMesh, matNoColor texNone⟩ (.missing COLOR)).2.1 texNone rfl rfl,
    (claim_C10_material_reads_precede_target_check.1 oesFix false [] idMat4Q
      ⟨quadMesh, matNoOpacity texNone⟩ (.missing OPACITY)).2.2 texNone ⟨1, 1, 1⟩
      rfl rfl rfl⟩,
   (claim_C10_material_reads_precede_target_check.2.1 cubeFix false [] idMat4Q
      idMat4Q ⟨quadMesh, matNoTexture⟩ (.missing MAIN_TEXTURE)).1 rfl,
   (claim_C10_material_reads_precede_target_check.2.2.1 reflFix false [] idMat4Q
      idMat4Q idMat4Q idMat4Q ⟨quadMesh, matNoColor texNone⟩
      (.missing COLOR)).2.1 texNone rfl rfl,
   (claim_C10_material_reads_precede_target_check.2.2.2 stereoFix false [] idMat4Q
      ⟨quadMesh, matNoOpacity texNone⟩ true (.missing OPACITY)).2.2 texNone
      ⟨1, 1, 1⟩ rfl rfl rfl⟩

end gvr
